import Mathlib

/-!
Shallow embedding of the testimonial carousel controller from `src/main.js`
(function `initLineRevealTestimonials`, lines 368-640).

The controller owns, per wrap: the slide list, `activeIndex`, `isAnimating`,
`isInView`, the autoplay configuration and the pending `gsap.delayedCall`
timer.  Transitions are requested from an external animator (`gsap.timeline`);
the timeline's `onComplete` callback settles the transition.  We model the
mutable controller state as a `Carousel` record, animator requests as a list
of `Tween` descriptors, and the cancellable one-shot autoplay timer as a
`Timer` record (remaining milliseconds plus a paused flag, matching
`delayedCall` / `pause` / `resume` / `kill` semantics).

A JS out-of-range array access (`slides[nextIndex]` with `nextIndex` outside
`[0, slides.length)`) yields `undefined`; the subsequent member access on it
throws a `TypeError`.  `goTo` therefore reports `threw := true` in that case,
after having already set `isAnimating` (see `goTo` below).
-/

/-- State of a `gsap.delayedCall` one-shot timer owned by the controller
(`autoplayCall` in the source): remaining time and whether it is paused. -/
structure Timer where
  remainingMs : Int
  paused : Bool
deriving DecidableEq, Repr

/-- Visual state of one slide item, as written by `setSlideState`
(lines 415-423): the `is--active` class, the `aria-hidden` attribute and the
`autoAlpha` / `pointerEvents` properties set through `gsap.set`. -/
structure SlideVis where
  isActive : Bool
  ariaHidden : Bool
  visible : Bool
  interactive : Bool
deriving DecidableEq, Repr

/-- The per-wrap mutable state of `initLineRevealTestimonials`
(lines 386-397 plus the counter display and the slide items). -/
structure Carousel where
  slideCount : Nat
  slides : List SlideVis
  slideHasImage : List Bool
  activeIndex : Nat
  isAnimating : Bool
  isInView : Bool
  reduceMotion : Bool
  autoplayEnabled : Bool
  autoplayDurationMs : Int
  autoplayCall : Option Timer
  counter : Nat
  pendingTarget : Option Nat
deriving DecidableEq, Repr

/-- The slide state written by `setSlideState(i, isActive)`:
`classList.toggle("is--active", isActive)`, `aria-hidden = String(!isActive)`,
`gsap.set(item, {autoAlpha: isActive ? 1 : 0, pointerEvents: ...})`. -/
def slideStateFor (isActive : Bool) : SlideVis :=
  { isActive := isActive
    ariaHidden := !isActive
    visible := isActive
    interactive := isActive }

/-- `setSlideState` (lines 415-423). -/
def setSlideState (c : Carousel) (slideIndex : Nat) (isActive : Bool) : Carousel :=
  { c with slides := c.slides.set slideIndex (slideStateFor isActive) }

/-- `updateCounter` (lines 425-427): `elCurrent.textContent = String(activeIndex + 1)`. -/
def updateCounter (c : Carousel) : Carousel :=
  { c with counter := c.activeIndex + 1 }

/-- `startAutoplay` (lines 429-441): guarded by `autoplayEnabled`; kills any
existing `delayedCall` and schedules a fresh one at the full duration. -/
def startAutoplay (c : Carousel) : Carousel :=
  if !c.autoplayEnabled then c
  else { c with autoplayCall := some { remainingMs := c.autoplayDurationMs, paused := false } }

/-- `pauseAutoplay` (lines 443-445): `if (autoplayCall) autoplayCall.pause()`.
Pausing freezes the timer; its remaining time is preserved. -/
def pauseAutoplay (c : Carousel) : Carousel :=
  match c.autoplayCall with
  | none => c
  | some t => { c with autoplayCall := some { t with paused := true } }

/-- `resumeAutoplay` (lines 447-451): guarded by `autoplayEnabled`; starts a
fresh timer when none exists, otherwise unpauses the existing one. -/
def resumeAutoplay (c : Carousel) : Carousel :=
  if !c.autoplayEnabled then c
  else
    match c.autoplayCall with
    | none => startAutoplay c
    | some t => { c with autoplayCall := some { t with paused := false } }

/-- `resetAutoplay` (lines 453-456). -/
def resetAutoplay (c : Carousel) : Carousel :=
  if !c.autoplayEnabled then c
  else startAutoplay c

/-- Wall-clock time passing on an unpaused timer (the `delayedCall` counting
down); a paused timer does not advance. -/
def elapse (c : Carousel) (dt : Nat) : Carousel :=
  match c.autoplayCall with
  | none => c
  | some t =>
    if t.paused then c
    else { c with autoplayCall := some { t with remainingMs := t.remainingMs - dt } }

/-- `parseInt`'s digit scan: consume the longest leading digit run. -/
def takeDigitsVal (acc : Nat) : List Char → Nat
  | [] => acc
  | ch :: rest =>
    if ch.isDigit then takeDigitsVal (acc * 10 + (ch.toNat - 48)) rest
    else acc

/-- `parseInt`'s digit prefix: `none` when the first character is not a digit
(JS `NaN`). -/
def parseDigits : List Char → Option Nat
  | [] => none
  | ch :: rest =>
    if ch.isDigit then some (takeDigitsVal (ch.toNat - 48) rest)
    else none

/-- Leading-whitespace skip performed by `parseInt`. -/
def skipWs : List Char → List Char
  | [] => []
  | ch :: rest =>
    if ch = ' ' ∨ ch = '\t' ∨ ch = '\n' ∨ ch = '\r' then skipWs rest
    else ch :: rest

/-- JS `parseInt(s, 10)`: skip leading whitespace, optional sign, then the
longest digit prefix; `none` models `NaN`. -/
def jsParseInt (s : String) : Option Int :=
  match skipWs s.toList with
  | '-' :: rest => (parseDigits rest).map (fun n => -(n : Int))
  | '+' :: rest => (parseDigits rest).map (fun n => (n : Int))
  | l => (parseDigits l).map (fun n => (n : Int))

/-- Line 393: `parseInt(wrap.getAttribute("data-autoplay-duration"), 10) || 4000`.
A missing attribute is `null`; `parseInt(null, 10)` is `NaN`; `NaN || 4000`
is `4000`.  A parsed `0` is falsy in JS and also falls back to `4000`. -/
def autoplayDurationOf (attr : Option String) : Int :=
  match attr with
  | none => 4000
  | some s =>
    match jsParseInt s with
    | none => 4000
    | some v => if v = 0 then 4000 else v

/-- Targets of animator requests issued by `goTo`. -/
inductive AnimTarget
  | item (i : Nat)
  | lines (i : Nat)
  | image (i : Nat)
deriving DecidableEq, Repr

/-- Properties animated by `goTo`'s transition. -/
inductive AnimProp
  | autoAlpha
  | pointerEvents
  | yPercent
  | clipPath
deriving DecidableEq, Repr

/-- One animator request (a `gsap.set` / `tl.to` / `tl.fromTo` / `tl.set`
call): target, property, final value, duration in milliseconds (0 for an
immediate set) and ease string.  `clipPath` values are recorded as the circle
radius percentage; stagger parameters are elided. -/
structure Tween where
  target : AnimTarget
  prop : AnimProp
  val : Int
  durationMs : Nat
  ease : String
deriving DecidableEq, Repr

/-- Result of a `goTo` call: the controller state afterwards, whether a
transition timeline (with its `onComplete`) was created, the animator
requests issued, and whether the call threw a `TypeError`. -/
structure GoToResult where
  state : Carousel
  timelineCreated : Bool
  tweens : List Tween
  threw : Bool
deriving DecidableEq, Repr

/-- `item.querySelector("[data-testimonial-img]")` presence for slide `i`. -/
def hasImage (c : Carousel) (i : Nat) : Bool :=
  c.slideHasImage.getD i false

/-- In-place update of one list element (the `gsap.set` on
`incomingSlide.item` mutates that slide only). -/
def listModify {α : Type} (l : List α) (i : Nat) (f : α → α) : List α :=
  match l, i with
  | [], _ => []
  | x :: xs, 0 => f x :: xs
  | x :: xs, n + 1 => x :: listModify xs n f

/-- The full-motion transition requests of `goTo` (lines 528-567), in source
order: the immediate preparation sets (incoming item shown, incoming lines
offscreen, image clip paths reset), then the line/clip tweens, then the final
`tl.set` hiding the outgoing item. -/
def fullMotionTweens (a t : Nat) (outImg inImg : Bool) : List Tween :=
  [{ target := .item t, prop := .autoAlpha, val := 1, durationMs := 0, ease := "" },
   { target := .item t, prop := .pointerEvents, val := 1, durationMs := 0, ease := "" },
   { target := .lines t, prop := .yPercent, val := 110, durationMs := 0, ease := "" }] ++
  (if inImg then [{ target := .image t, prop := .clipPath, val := 0, durationMs := 0, ease := "" }] else []) ++
  (if outImg then [{ target := .image a, prop := .clipPath, val := 50, durationMs := 0, ease := "" }] else []) ++
  [{ target := .lines a, prop := .yPercent, val := -110, durationMs := 600, ease := "power4.inOut" }] ++
  (if outImg then [{ target := .image a, prop := .clipPath, val := 0, durationMs := 600, ease := "power4.inOut" }] else []) ++
  [{ target := .lines t, prop := .yPercent, val := 0, durationMs := 700, ease := "power4.inOut" }] ++
  (if inImg then [{ target := .image t, prop := .clipPath, val := 50, durationMs := 750, ease := "power4.inOut" }] else []) ++
  [{ target := .item a, prop := .autoAlpha, val := 0, durationMs := 0, ease := "" }]

/-- `goTo(nextIndex)` (lines 494-568).

Guard (line 495): returns immediately when `isAnimating` or
`nextIndex === activeIndex`.  Otherwise `isAnimating = true` (line 496) and
the slides are looked up (lines 498-499); an out-of-range `nextIndex` yields
an `undefined` `incomingSlide`.  A timeline with the settling `onComplete`
is created (line 501).  In reduced motion the two-fade cross-fade is built
(lines 511-526); the first fade tween on the outgoing item is added before
the `fromTo` dereferences `incomingSlide.item`, so the out-of-range call
throws with one tween already issued.  In full motion the out-of-range call
throws at `incomingSlide.getLines()` (line 529) before any set or tween.
The valid full-motion path first shows the incoming item via `gsap.set`
(line 531, reflected in the slide's `visible`/`interactive` state) and then
issues `fullMotionTweens`.  A throwing call never installs a completable
transition: the half-built timeline's own completion handler would itself
throw inside `setSlideState(nextIndex, true)` before clearing `isAnimating`,
so no `pendingTarget` is recorded for it. -/
def goTo (c : Carousel) (nextIndex : Int) : GoToResult :=
  if c.isAnimating ∨ nextIndex = (c.activeIndex : Int) then
    { state := c, timelineCreated := false, tweens := [], threw := false }
  else
    let c1 : Carousel := { c with isAnimating := true }
    if c.reduceMotion then
      if 0 ≤ nextIndex ∧ nextIndex < (c.slideCount : Int) then
        { state := { c1 with pendingTarget := some nextIndex.toNat }
          timelineCreated := true
          tweens :=
            [{ target := .item c.activeIndex, prop := .autoAlpha, val := 0,
               durationMs := 400, ease := "power2" },
             { target := .item nextIndex.toNat, prop := .autoAlpha, val := 1,
               durationMs := 400, ease := "power2" }]
          threw := false }
      else
        { state := c1
          timelineCreated := true
          tweens :=
            [{ target := .item c.activeIndex, prop := .autoAlpha, val := 0,
               durationMs := 400, ease := "power2" }]
          threw := true }
    else
      if 0 ≤ nextIndex ∧ nextIndex < (c.slideCount : Int) then
        let t := nextIndex.toNat
        { state :=
            { c1 with
              slides := listModify c1.slides t
                (fun s => { s with visible := true, interactive := true })
              pendingTarget := some t }
          timelineCreated := true
          tweens := fullMotionTweens c.activeIndex t (hasImage c c.activeIndex) (hasImage c t)
          threw := false }
      else
        { state := c1, timelineCreated := true, tweens := [], threw := true }

/-- The transition timeline's `onComplete` (lines 502-508): mark the outgoing
slide inactive, the target active, set `activeIndex = nextIndex`, refresh the
counter, clear `isAnimating`.  It does not touch the autoplay timer. -/
def onTransitionComplete (c : Carousel) : Carousel :=
  match c.pendingTarget with
  | none => c
  | some t =>
    let c1 := setSlideState c c.activeIndex false
    let c2 := setSlideState c1 t true
    let c3 := { c2 with activeIndex := t }
    let c4 := updateCounter c3
    { c4 with isAnimating := false, pendingTarget := none }

/-- The body of the autoplay `delayedCall` callback (lines 433-440): when not
in view or animating, reschedule without advancing; otherwise advance via
`goTo((activeIndex + 1) % slides.length)` and reschedule. -/
def autoplayTick (c : Carousel) : GoToResult :=
  if !c.isInView || c.isAnimating then
    { state := startAutoplay c, timelineCreated := false, tweens := [], threw := false }
  else
    let r := goTo c (((c.activeIndex + 1) % c.slideCount : Nat) : Int)
    { r with state := startAutoplay r.state }

/-- `btnNext` click handler (lines 573-578): `resetAutoplay()` then
`goTo((activeIndex + 1) % slides.length)`. -/
def clickNext (c : Carousel) : GoToResult :=
  let c1 := resetAutoplay c
  goTo c1 (((c1.activeIndex + 1) % c1.slideCount : Nat) : Int)

/-- `btnPrev` click handler (lines 580-585): `resetAutoplay()` then
`goTo((activeIndex - 1 + slides.length) % slides.length)` with JS number
arithmetic (the dividend is non-negative for any valid state, where JS `%`
and `Int.emod` agree). -/
def clickPrev (c : Carousel) : GoToResult :=
  let c1 := resetAutoplay c
  goTo c1 (((c1.activeIndex : Int) - 1 + (c1.slideCount : Int)) % (c1.slideCount : Int))

/-- `onKeyDown` (lines 587-611): ignored when not in view or when focus is on
a typing target; ArrowRight behaves as the next handler, ArrowLeft as prev. -/
def onKeyDown (c : Carousel) (right : Bool) (typingTarget : Bool) : GoToResult :=
  if !c.isInView then
    { state := c, timelineCreated := false, tweens := [], threw := false }
  else if typingTarget then
    { state := c, timelineCreated := false, tweens := [], threw := false }
  else if right then clickNext c
  else clickPrev c

/-- `ScrollTrigger` `onEnter` / `onEnterBack` (lines 621-628). -/
def onViewportEnter (c : Carousel) : Carousel :=
  resumeAutoplay { c with isInView := true }

/-- `ScrollTrigger` `onLeave` / `onLeaveBack` (lines 629-636). -/
def onViewportLeave (c : Carousel) : Carousel :=
  pauseAutoplay { c with isInView := false }

/-- Per-wrap initialization (lines 376-460 and 571): bail out on an empty
item list; scan for a pre-marked `is--active` slide (JS `findIndex` yields
`-1` when absent, clamped to 0 by line 387); set every slide's initial state
via `setSlideState(i, i === activeIndex)`; write the counter; read the
autoplay configuration; finally `startAutoplay()`. -/
def initCarousel (marks hasImg : List Bool) (autoplayAttr durAttr : Option String)
    (reduceMotion : Bool) : Option Carousel :=
  if marks.isEmpty then none
  else
    let fi := marks.findIdx (fun b => b)
    let a := if fi < marks.length then fi else 0
    some (startAutoplay
      { slideCount := marks.length
        slides := (List.range marks.length).map (fun i => slideStateFor (decide (i = a)))
        slideHasImage := hasImg
        activeIndex := a
        isAnimating := false
        isInView := true
        reduceMotion := reduceMotion
        autoplayEnabled := autoplayAttr == some "true"
        autoplayDurationMs := autoplayDurationOf durAttr
        autoplayCall := none
        counter := a + 1
        pendingTarget := none })

/-- Per-slide static description used by the SplitText initialization
(lines 398-413): the number of split targets (`[data-testimonial-text]` plus
the `[data-testimonial-split]` elements) and image presence. -/
structure SlideDesc where
  numSplitTargets : Nat
  hasImg : Bool
deriving DecidableEq, Repr

/-- Lines 471-492: `SplitText.create` is invoked once per split target of
every slide.  The source does not consult the reduced-motion flag here; the
flag only short-circuits the `onSplit` callback body. -/
def splitCreateCalls (reduceMotion : Bool) (slide : SlideDesc) : Nat :=
  slide.numSplitTargets

/-- Property sets issued inside `onSplit` (lines 478-489). -/
inductive SplitSetOp
  | linesY (y : Int)
  | imageClip (pct : Nat)
deriving DecidableEq, Repr

/-- The `onSplit` callback body (lines 478-489): nothing in reduced motion;
otherwise position the lines and, when present, the image clip path according
to whether the slide is the active one. -/
def onSplitOps (reduceMotion : Bool) (isActiveSlide : Bool) (slide : SlideDesc) :
    List SplitSetOp :=
  if reduceMotion then []
  else
    [SplitSetOp.linesY (if isActiveSlide then 0 else 110)] ++
    (if slide.hasImg then [SplitSetOp.imageClip (if isActiveSlide then 50 else 0)] else [])

/-- External events driving an initialized carousel: the two button clicks,
a keydown (direction, typing-target flag), the autoplay timer firing, the
transition completion callback, viewport enter/leave, and time passing. -/
inductive Ev
  | clickNextE
  | clickPrevE
  | keyE (right : Bool) (typing : Bool)
  | tickE
  | completeE
  | enterE
  | leaveE
  | elapseE (dt : Nat)

/-- One event step of the carousel controller.  The autoplay callback can
only fire once its unpaused `delayedCall` has fully counted down; the
completion callback only settles an in-flight transition
(`onTransitionComplete` is the identity otherwise). -/
def step (c : Carousel) (e : Ev) : Carousel :=
  match e with
  | .clickNextE => (clickNext c).state
  | .clickPrevE => (clickPrev c).state
  | .keyE r t => (onKeyDown c r t).state
  | .tickE =>
    match c.autoplayCall with
    | some tm => if tm.paused = false ∧ tm.remainingMs ≤ 0 then (autoplayTick c).state else c
    | none => c
  | .completeE => onTransitionComplete c
  | .enterE => onViewportEnter c
  | .leaveE => onViewportLeave c
  | .elapseE dt => elapse c dt

/-- Iterated event steps. -/
def steps (c : Carousel) : List Ev → Carousel
  | [] => c
  | e :: rest => steps (step c e) rest

/-- States reachable by an initialized carousel under its event protocol. -/
inductive Reachable : Carousel → Prop
  | init (marks hasImg : List Bool) (ap durAttr : Option String) (rm : Bool) (c : Carousel) :
      initCarousel marks hasImg ap durAttr rm = some c → Reachable c
  | step (c : Carousel) (e : Ev) : Reachable c → Reachable (step c e)

/-- Number of slides carrying the `is--active` marking. -/
def activeCount (c : Carousel) : Nat :=
  c.slides.countP (fun s => s.isActive)

/-- Boolean mask of length `n` that is `true` exactly at position `a`. -/
def onlyAt (n a : Nat) : List Bool :=
  (List.range n).map (fun j => decide (j = a))

/-- Controller invariant maintained by the event protocol: the active index is
in range, the `is--active` markings single out exactly the active slide, and
an in-flight transition (if any) targets a distinct in-range slide. -/
def CarouselInv (c : Carousel) : Prop :=
  c.activeIndex < c.slideCount ∧
  c.slides.map (fun s => s.isActive) = onlyAt c.slideCount c.activeIndex ∧
  (c.isAnimating = false → c.pendingTarget = none) ∧
  (∀ t, c.pendingTarget = some t → t < c.slideCount ∧ t ≠ c.activeIndex)

/-- A carousel stuck mid-"transition": `isAnimating` is set but no completable
transition exists, so nothing can ever clear it or move the active index. -/
def LockedAt (c : Carousel) (a0 : Nat) : Prop :=
  c.isAnimating = true ∧ c.pendingTarget = none ∧ c.activeIndex = a0

/-- Trace of a sequence of next/prev button clicks (`true` = next): the final
state, all animator tween requests issued, and whether any transition
timeline was ever created. -/
structure NavTrace where
  final : Carousel
  tweens : List Tween
  timelineCreated : Bool
deriving DecidableEq, Repr

/-- Run a sequence of next/prev clicks. -/
def runNavs (c : Carousel) : List Bool → NavTrace
  | [] => { final := c, tweens := [], timelineCreated := false }
  | b :: rest =>
    let r := if b then clickNext c else clickPrev c
    let tr := runNavs r.state rest
    { final := tr.final
      tweens := r.tweens ++ tr.tweens
      timelineCreated := r.timelineCreated || tr.timelineCreated }


/-- Sample two-slide carousel with autoplay enabled (exactly the state
`initCarousel [true, false] [false, false] (some "true") none false`
produces). -/
def cSample : Carousel :=
  { slideCount := 2
    slides := [slideStateFor true, slideStateFor false]
    slideHasImage := [false, false]
    activeIndex := 0
    isAnimating := false
    isInView := true
    reduceMotion := false
    autoplayEnabled := true
    autoplayDurationMs := 4000
    autoplayCall := some { remainingMs := 4000, paused := false }
    counter := 1
    pendingTarget := none }

/-- Sample four-slide carousel, autoplay disabled. -/
def cSample4 : Carousel :=
  { slideCount := 4
    slides := [slideStateFor true, slideStateFor false, slideStateFor false, slideStateFor false]
    slideHasImage := [false, false, false, false]
    activeIndex := 0
    isAnimating := false
    isInView := true
    reduceMotion := false
    autoplayEnabled := false
    autoplayDurationMs := 4000
    autoplayCall := none
    counter := 1
    pendingTarget := none }

/-- Sample single-slide carousel. -/
def cOne : Carousel :=
  { slideCount := 1
    slides := [slideStateFor true]
    slideHasImage := [false]
    activeIndex := 0
    isAnimating := false
    isInView := true
    reduceMotion := false
    autoplayEnabled := false
    autoplayDurationMs := 4000
    autoplayCall := none
    counter := 1
    pendingTarget := none }

/-- The carousel `initCarousel [true] [false] none (some "abc") false`
produces: a non-numeric duration attribute fell back to 4000 ms. -/
def c10W : Carousel :=
  { slideCount := 1
    slides := [slideStateFor true]
    slideHasImage := [false]
    activeIndex := 0
    isAnimating := false
    isInView := true
    reduceMotion := false
    autoplayEnabled := false
    autoplayDurationMs := 4000
    autoplayCall := none
    counter := 1
    pendingTarget := none }

/-! ### Helper lemmas -/

/-- The guard of `goTo` (line 495): nothing at all happens when a transition
is in flight or the target is the active index. -/
theorem goTo_noop_of_guard (c : Carousel) (i : Int)
    (h : c.isAnimating = true ∨ i = (c.activeIndex : Int)) :
    goTo c i = { state := c, timelineCreated := false, tweens := [], threw := false } := by
  unfold goTo
  split
  · rfl
  · rename_i hg
    exact absurd h hg

theorem startAutoplay_timerOnly (c : Carousel) :
    ∃ ac, startAutoplay c = { c with autoplayCall := ac } := by
  unfold startAutoplay
  split
  · exact ⟨c.autoplayCall, rfl⟩
  · exact ⟨_, rfl⟩

theorem resetAutoplay_timerOnly (c : Carousel) :
    ∃ ac, resetAutoplay c = { c with autoplayCall := ac } := by
  unfold resetAutoplay
  split
  · exact ⟨c.autoplayCall, rfl⟩
  · exact startAutoplay_timerOnly c

theorem pauseAutoplay_timerOnly (c : Carousel) :
    ∃ ac, pauseAutoplay c = { c with autoplayCall := ac } := by
  unfold pauseAutoplay
  rcases c with ⟨sc, sl, shi, ai, ia, iv, rm, ae, ad, acall, ct, pt⟩
  rcases acall with _ | t
  · exact ⟨none, rfl⟩
  · exact ⟨some { t with paused := true }, rfl⟩

theorem resumeAutoplay_timerOnly (c : Carousel) :
    ∃ ac, resumeAutoplay c = { c with autoplayCall := ac } := by
  unfold resumeAutoplay
  rcases c with ⟨sc, sl, shi, ai, ia, iv, rm, ae, ad, acall, ct, pt⟩
  split
  · exact ⟨acall, rfl⟩
  · rcases acall with _ | t
    · exact startAutoplay_timerOnly _
    · exact ⟨some { t with paused := false }, rfl⟩

theorem elapse_timerOnly (c : Carousel) (dt : Nat) :
    ∃ ac, elapse c dt = { c with autoplayCall := ac } := by
  unfold elapse
  rcases c with ⟨sc, sl, shi, ai, ia, iv, rm, ae, ad, acall, ct, pt⟩
  rcases acall with _ | t
  · exact ⟨none, rfl⟩
  · rcases t with ⟨rem, p⟩
    cases p
    · exact ⟨some { remainingMs := rem - dt, paused := false }, rfl⟩
    · exact ⟨some { remainingMs := rem, paused := true }, rfl⟩

theorem onViewportEnter_shape (c : Carousel) :
    ∃ ac, onViewportEnter c = { c with isInView := true, autoplayCall := ac } := by
  obtain ⟨ac, h⟩ := resumeAutoplay_timerOnly { c with isInView := true }
  exact ⟨ac, by rw [onViewportEnter, h]⟩

theorem onViewportLeave_shape (c : Carousel) :
    ∃ ac, onViewportLeave c = { c with isInView := false, autoplayCall := ac } := by
  obtain ⟨ac, h⟩ := pauseAutoplay_timerOnly { c with isInView := false }
  exact ⟨ac, by rw [onViewportLeave, h]⟩

theorem map_listModify_isActive (l : List SlideVis) (t : Nat) :
    (listModify l t (fun s => { s with visible := true, interactive := true })).map
      (fun s => s.isActive) = l.map (fun s => s.isActive) := by
  induction l generalizing t with
  | nil => rfl
  | cons x xs ih =>
    cases t with
    | zero => simp [listModify]
    | succ n => simp [listModify, ih]

/-- Behaviour of a valid `goTo` call: the transition begins (pending target,
`isAnimating`, timeline with completion callback), and nothing else of the
controller state changes — in particular the active markings and the
autoplay timer are untouched until completion. -/
theorem goTo_valid_core (c : Carousel) (i : Int)
    (hA : c.isAnimating = false) (hne : i ≠ (c.activeIndex : Int))
    (h0 : 0 ≤ i) (hN : i < (c.slideCount : Int)) :
    (goTo c i).state.pendingTarget = some i.toNat ∧
    (goTo c i).state.isAnimating = true ∧
    (goTo c i).timelineCreated = true ∧
    (goTo c i).threw = false ∧
    (goTo c i).state.activeIndex = c.activeIndex ∧
    (goTo c i).state.slideCount = c.slideCount ∧
    (goTo c i).state.counter = c.counter ∧
    (goTo c i).state.autoplayCall = c.autoplayCall ∧
    (goTo c i).state.autoplayEnabled = c.autoplayEnabled ∧
    (goTo c i).state.autoplayDurationMs = c.autoplayDurationMs ∧
    (goTo c i).state.isInView = c.isInView ∧
    (goTo c i).state.reduceMotion = c.reduceMotion ∧
    (goTo c i).state.slideHasImage = c.slideHasImage ∧
    (goTo c i).state.slides.map (fun s => s.isActive) = c.slides.map (fun s => s.isActive) := by
  unfold goTo
  have hg : ¬(c.isAnimating = true ∨ i = (c.activeIndex : Int)) := by
    rw [hA]; simp [hne]
  rw [if_neg hg]
  by_cases hrm : c.reduceMotion <;>
    simp [hrm, if_pos (And.intro h0 hN), map_listModify_isActive]

/-- Behaviour of a non-animating `goTo` call on an out-of-range index: the
call throws after `isAnimating` was set; nothing else changed and no
completable transition was installed. -/
theorem goTo_oob (c : Carousel) (i : Int)
    (hA : c.isAnimating = false) (hne : i ≠ (c.activeIndex : Int))
    (hoob : ¬(0 ≤ i ∧ i < (c.slideCount : Int))) :
    (goTo c i).threw = true ∧ (goTo c i).state = { c with isAnimating := true } := by
  unfold goTo
  have hg : ¬(c.isAnimating = true ∨ i = (c.activeIndex : Int)) := by
    rw [hA]; simp [hne]
  rw [if_neg hg]
  by_cases hrm : c.reduceMotion <;> simp [hrm, if_neg hoob]

/-! ### The exactly-one-active invariant -/

theorem onlyAt_set_set (N a t : Nat) (ht : t < N) :
    ((onlyAt N a).set a false).set t true = onlyAt N t := by
  apply List.ext_getElem
  · simp [onlyAt]
  · intro n h1 h2
    simp only [onlyAt, List.length_map, List.length_range, List.length_set] at h1 h2
    simp only [onlyAt, List.getElem_set, List.getElem_map, List.getElem_range]
    by_cases htn : t = n
    · simp [htn]
    · by_cases han : a = n
      · simp [htn, han]
        omega
      · simp [htn, han]
        omega

theorem countP_onlyAt (N a : Nat) (ha : a < N) :
    (onlyAt N a).countP (fun b => b) = 1 := by
  unfold onlyAt
  rw [List.countP_map]
  induction N with
  | zero => omega
  | succ n ih =>
    rw [List.range_succ, List.countP_append]
    by_cases h : a = n
    · subst h
      have hz : (List.range a).countP ((fun b => b) ∘ fun j => decide (j = a)) = 0 := by
        rw [List.countP_eq_zero]
        intro x hx
        simp only [List.mem_range] at hx
        simp [Function.comp]
        omega
      rw [hz]
      simp [List.countP_cons, Function.comp]
    · have ha' : a < n := by omega
      rw [ih ha']
      simp [List.countP_cons, Function.comp, h]
      omega

theorem activeCount_of_flags (c : Carousel)
    (h : c.slides.map (fun s => s.isActive) = onlyAt c.slideCount c.activeIndex)
    (ha : c.activeIndex < c.slideCount) :
    activeCount c = 1 := by
  have h2 := congrArg (List.countP (fun b => b)) h
  rw [List.countP_map, countP_onlyAt _ _ ha] at h2
  simpa [activeCount, Function.comp] using h2

/-- `CarouselInv` only mentions fields the timer-and-view operations leave alone. -/
theorem carouselInv_update (c : Carousel) (ac : Option Timer) (iv : Bool) (hInv : CarouselInv c) :
    CarouselInv { c with autoplayCall := ac, isInView := iv } := hInv

theorem carouselInv_goTo (c : Carousel) (hInv : CarouselInv c) (i : Int)
    (h0 : 0 ≤ i) (hN : i < (c.slideCount : Int)) :
    CarouselInv (goTo c i).state := by
  by_cases hA : c.isAnimating = true
  · rw [goTo_noop_of_guard c i (Or.inl hA)]
    exact hInv
  · by_cases hne : i = (c.activeIndex : Int)
    · rw [goTo_noop_of_guard c i (Or.inr hne)]
      exact hInv
    · have hA' : c.isAnimating = false := by
        cases hb : c.isAnimating
        · rfl
        · exact absurd hb hA
      obtain ⟨hpend, hanim, _, _, hai, hsc, _, _, _, _, _, _, _, hflags⟩ :=
        goTo_valid_core c i hA' hne h0 hN
      refine ⟨?_, ?_, ?_, ?_⟩
      · rw [hai, hsc]; exact hInv.1
      · rw [hflags, hsc, hai]; exact hInv.2.1
      · intro hfalse; rw [hanim] at hfalse; exact absurd hfalse (by simp)
      · intro t hpt
        rw [hpend] at hpt
        injection hpt with hpt
        subst hpt
        constructor
        · rw [hsc]; exact (Int.toNat_lt h0).mpr hN
        · rw [hai]
          intro hcontra
          apply hne
          rw [← Int.toNat_of_nonneg h0, hcontra]

/-- The settling `onComplete` as one record update. -/
theorem onTransitionComplete_spec (c : Carousel) (t : Nat) (hpt : c.pendingTarget = some t) :
    onTransitionComplete c =
      { c with
        slides := (c.slides.set c.activeIndex (slideStateFor false)).set t (slideStateFor true)
        activeIndex := t
        counter := t + 1
        isAnimating := false
        pendingTarget := none } := by
  simp [onTransitionComplete, hpt, setSlideState, updateCounter]

theorem carouselInv_complete (c : Carousel) (hInv : CarouselInv c) :
    CarouselInv (onTransitionComplete c) := by
  rcases hpt : c.pendingTarget with _ | t
  · have : onTransitionComplete c = c := by
      simp [onTransitionComplete, hpt]
    rw [this]
    exact hInv
  · obtain ⟨ha, hflags, _, hpend⟩ := hInv
    obtain ⟨htN, hta⟩ := hpend t hpt
    rw [onTransitionComplete_spec c t hpt]
    refine ⟨htN, ?_, fun _ => rfl, fun t' h' => by simp at h'⟩
    show ((c.slides.set c.activeIndex (slideStateFor false)).set t
        (slideStateFor true)).map (fun s => s.isActive) = onlyAt c.slideCount t
    rw [List.map_set, List.map_set, hflags]
    exact onlyAt_set_set c.slideCount c.activeIndex t htN

theorem carouselInv_clickNext (c : Carousel) (hInv : CarouselInv c) :
    CarouselInv (clickNext c).state := by
  obtain ⟨ac, hac⟩ := resetAutoplay_timerOnly c
  have hN : 0 < c.slideCount := lt_of_le_of_lt (Nat.zero_le _) hInv.1
  unfold clickNext
  rw [hac]
  apply carouselInv_goTo
  · exact carouselInv_update c ac c.isInView hInv
  · exact Int.natCast_nonneg _
  · exact_mod_cast Nat.mod_lt _ hN

theorem carouselInv_clickPrev (c : Carousel) (hInv : CarouselInv c) :
    CarouselInv (clickPrev c).state := by
  obtain ⟨ac, hac⟩ := resetAutoplay_timerOnly c
  have hN : 0 < c.slideCount := lt_of_le_of_lt (Nat.zero_le _) hInv.1
  have hNpos : (0 : Int) < (c.slideCount : Int) := by exact_mod_cast hN
  unfold clickPrev
  rw [hac]
  apply carouselInv_goTo
  · exact carouselInv_update c ac c.isInView hInv
  · exact Int.emod_nonneg _ (ne_of_gt hNpos)
  · exact Int.emod_lt_of_pos _ hNpos

theorem carouselInv_tick (c : Carousel) (hInv : CarouselInv c) :
    CarouselInv (autoplayTick c).state := by
  unfold autoplayTick
  by_cases hb : (!c.isInView || c.isAnimating) = true
  · rw [if_pos hb]
    obtain ⟨ac, hs⟩ := startAutoplay_timerOnly c
    show CarouselInv (startAutoplay c)
    rw [hs]
    exact carouselInv_update c ac c.isInView hInv
  · rw [if_neg hb]
    have hN : 0 < c.slideCount := lt_of_le_of_lt (Nat.zero_le _) hInv.1
    show CarouselInv (startAutoplay (goTo c (((c.activeIndex + 1) % c.slideCount : Nat) : Int)).state)
    obtain ⟨ac, hs⟩ := startAutoplay_timerOnly (goTo c (((c.activeIndex + 1) % c.slideCount : Nat) : Int)).state
    rw [hs]
    have hg : CarouselInv (goTo c (((c.activeIndex + 1) % c.slideCount : Nat) : Int)).state := by
      apply carouselInv_goTo c hInv
      · exact Int.natCast_nonneg _
      · exact_mod_cast Nat.mod_lt _ hN
    exact carouselInv_update _ ac _ hg

theorem carouselInv_step (c : Carousel) (e : Ev) (hInv : CarouselInv c) :
    CarouselInv (step c e) := by
  cases e with
  | clickNextE => exact carouselInv_clickNext c hInv
  | clickPrevE => exact carouselInv_clickPrev c hInv
  | keyE r t =>
    show CarouselInv (onKeyDown c r t).state
    unfold onKeyDown
    split
    · exact hInv
    · split
      · exact hInv
      · split
        · exact carouselInv_clickNext c hInv
        · exact carouselInv_clickPrev c hInv
  | tickE =>
    rcases hc : c.autoplayCall with _ | tm
    · simp only [step, hc]
      exact hInv
    · simp only [step, hc]
      split
      · exact carouselInv_tick c hInv
      · exact hInv
  | completeE => exact carouselInv_complete c hInv
  | enterE =>
    show CarouselInv (onViewportEnter c)
    obtain ⟨ac, hs⟩ := onViewportEnter_shape c
    rw [hs]
    exact carouselInv_update c ac true hInv
  | leaveE =>
    show CarouselInv (onViewportLeave c)
    obtain ⟨ac, hs⟩ := onViewportLeave_shape c
    rw [hs]
    exact carouselInv_update c ac false hInv
  | elapseE dt =>
    show CarouselInv (elapse c dt)
    obtain ⟨ac, hs⟩ := elapse_timerOnly c dt
    rw [hs]
    exact carouselInv_update c ac c.isInView hInv

theorem carouselInv_init (marks hasImg : List Bool) (ap durAttr : Option String) (rm : Bool)
    (c : Carousel) (h : initCarousel marks hasImg ap durAttr rm = some c) :
    CarouselInv c := by
  unfold initCarousel at h
  by_cases he : marks.isEmpty
  · rw [if_pos he] at h
    exact absurd h (by simp)
  · rw [if_neg he] at h
    injection h with h
    subst h
    have hlen : 0 < marks.length := by
      rcases marks with _ | ⟨x, xs⟩
      · simp at he
      · simp
    obtain ⟨ac, hs⟩ := startAutoplay_timerOnly
      { slideCount := marks.length
        slides := (List.range marks.length).map (fun i => slideStateFor
          (decide (i = if marks.findIdx (fun b => b) < marks.length
                       then marks.findIdx (fun b => b) else 0)))
        slideHasImage := hasImg
        activeIndex := if marks.findIdx (fun b => b) < marks.length
                       then marks.findIdx (fun b => b) else 0
        isAnimating := false
        isInView := true
        reduceMotion := rm
        autoplayEnabled := ap == some "true"
        autoplayDurationMs := autoplayDurationOf durAttr
        autoplayCall := none
        counter := (if marks.findIdx (fun b => b) < marks.length
                    then marks.findIdx (fun b => b) else 0) + 1
        pendingTarget := none }
    rw [hs]
    apply carouselInv_update
    refine ⟨?_, ?_, fun _ => rfl, fun t' h' => by simp at h'⟩
    · show (if marks.findIdx (fun b => b) < marks.length
            then marks.findIdx (fun b => b) else 0) < marks.length
      split
      · assumption
      · exact hlen
    · show ((List.range marks.length).map (fun i => slideStateFor
          (decide (i = if marks.findIdx (fun b => b) < marks.length
                       then marks.findIdx (fun b => b) else 0)))).map (fun s => s.isActive)
        = onlyAt marks.length (if marks.findIdx (fun b => b) < marks.length
                               then marks.findIdx (fun b => b) else 0)
      rw [List.map_map]
      rfl

/-- Every reachable state of an initialized carousel satisfies the
controller invariant. -/
theorem carouselInv_reachable (c : Carousel) (h : Reachable c) : CarouselInv c := by
  induction h with
  | init marks hasImg ap durAttr rm c h0 => exact carouselInv_init marks hasImg ap durAttr rm c h0
  | step c e hr ih => exact carouselInv_step c e ih

/-! ### The locked state left behind by a throwing goTo -/

theorem clickNext_state_of_animating (c : Carousel) (h1 : c.isAnimating = true) :
    (clickNext c).state = resetAutoplay c := by
  obtain ⟨ac, hac⟩ := resetAutoplay_timerOnly c
  have h1' : (resetAutoplay c).isAnimating = true := by rw [hac]; exact h1
  show (goTo (resetAutoplay c)
    ((((resetAutoplay c).activeIndex + 1) % (resetAutoplay c).slideCount : Nat) : Int)).state
    = resetAutoplay c
  rw [goTo_noop_of_guard _ _ (Or.inl h1')]

theorem clickPrev_state_of_animating (c : Carousel) (h1 : c.isAnimating = true) :
    (clickPrev c).state = resetAutoplay c := by
  obtain ⟨ac, hac⟩ := resetAutoplay_timerOnly c
  have h1' : (resetAutoplay c).isAnimating = true := by rw [hac]; exact h1
  show (goTo (resetAutoplay c)
    ((((resetAutoplay c).activeIndex : Int) - 1 + ((resetAutoplay c).slideCount : Int)) %
      ((resetAutoplay c).slideCount : Int))).state = resetAutoplay c
  rw [goTo_noop_of_guard _ _ (Or.inl h1')]

theorem lockedAt_step (c : Carousel) (a0 : Nat) (h : LockedAt c a0) (e : Ev) :
    LockedAt (step c e) a0 := by
  obtain ⟨h1, h2, h3⟩ := h
  cases e with
  | clickNextE =>
    show LockedAt (clickNext c).state a0
    rw [clickNext_state_of_animating c h1]
    obtain ⟨ac, hac⟩ := resetAutoplay_timerOnly c
    rw [hac]
    exact ⟨h1, h2, h3⟩
  | clickPrevE =>
    show LockedAt (clickPrev c).state a0
    rw [clickPrev_state_of_animating c h1]
    obtain ⟨ac, hac⟩ := resetAutoplay_timerOnly c
    rw [hac]
    exact ⟨h1, h2, h3⟩
  | keyE r t =>
    show LockedAt (onKeyDown c r t).state a0
    unfold onKeyDown
    split
    · exact ⟨h1, h2, h3⟩
    · split
      · exact ⟨h1, h2, h3⟩
      · split
        · rw [clickNext_state_of_animating c h1]
          obtain ⟨ac, hac⟩ := resetAutoplay_timerOnly c
          rw [hac]
          exact ⟨h1, h2, h3⟩
        · rw [clickPrev_state_of_animating c h1]
          obtain ⟨ac, hac⟩ := resetAutoplay_timerOnly c
          rw [hac]
          exact ⟨h1, h2, h3⟩
  | tickE =>
    rcases hc : c.autoplayCall with _ | tm
    · simp only [step, hc]
      exact ⟨h1, h2, h3⟩
    · simp only [step, hc]
      split
      · show LockedAt (autoplayTick c).state a0
        unfold autoplayTick
        rw [if_pos (by simp [h1])]
        obtain ⟨ac, hs⟩ := startAutoplay_timerOnly c
        show LockedAt (startAutoplay c) a0
        rw [hs]
        exact ⟨h1, h2, h3⟩
      · exact ⟨h1, h2, h3⟩
  | completeE =>
    show LockedAt (onTransitionComplete c) a0
    have : onTransitionComplete c = c := by
      simp [onTransitionComplete, h2]
    rw [this]
    exact ⟨h1, h2, h3⟩
  | enterE =>
    show LockedAt (onViewportEnter c) a0
    obtain ⟨ac, hs⟩ := onViewportEnter_shape c
    rw [hs]
    exact ⟨h1, h2, h3⟩
  | leaveE =>
    show LockedAt (onViewportLeave c) a0
    obtain ⟨ac, hs⟩ := onViewportLeave_shape c
    rw [hs]
    exact ⟨h1, h2, h3⟩
  | elapseE dt =>
    show LockedAt (elapse c dt) a0
    obtain ⟨ac, hs⟩ := elapse_timerOnly c dt
    rw [hs]
    exact ⟨h1, h2, h3⟩

theorem lockedAt_steps (c : Carousel) (a0 : Nat) (h : LockedAt c a0) (evs : List Ev) :
    LockedAt (steps c evs) a0 := by
  induction evs generalizing c with
  | nil => exact h
  | cons e rest ih => exact ih (step c e) (lockedAt_step c a0 h e)

/-! ### Iterated next/prev clicks (for the single-slide carousel) -/

/-- On a single-slide carousel both click handlers compute the active index
itself as target, so `goTo` returns at its guard and only the autoplay reset
remains. -/
theorem click_noop_single (c : Carousel) (h1 : c.slideCount = 1) (h0 : c.activeIndex = 0)
    (b : Bool) :
    (if b then clickNext c else clickPrev c) =
      { state := resetAutoplay c, timelineCreated := false, tweens := [], threw := false } := by
  obtain ⟨ac, hac⟩ := resetAutoplay_timerOnly c
  cases b
  · show goTo (resetAutoplay c)
        ((((resetAutoplay c).activeIndex : Int) - 1 + ((resetAutoplay c).slideCount : Int)) %
          ((resetAutoplay c).slideCount : Int))
        = { state := resetAutoplay c, timelineCreated := false, tweens := [], threw := false }
    have htgt : (((resetAutoplay c).activeIndex : Int) - 1 + ((resetAutoplay c).slideCount : Int)) %
        ((resetAutoplay c).slideCount : Int) = ((resetAutoplay c).activeIndex : Int) := by
      rw [hac]
      show (((c.activeIndex : Int) - 1 + (c.slideCount : Int)) % (c.slideCount : Int))
          = (c.activeIndex : Int)
      rw [h1, h0]
      decide
    rw [goTo_noop_of_guard _ _ (Or.inr htgt)]
  · show goTo (resetAutoplay c)
        ((((resetAutoplay c).activeIndex + 1) % (resetAutoplay c).slideCount : Nat) : Int)
        = { state := resetAutoplay c, timelineCreated := false, tweens := [], threw := false }
    have htgt : ((((resetAutoplay c).activeIndex + 1) % (resetAutoplay c).slideCount : Nat) : Int)
        = ((resetAutoplay c).activeIndex : Int) := by
      rw [hac]
      show ((((c.activeIndex + 1) % c.slideCount : Nat)) : Int) = (c.activeIndex : Int)
      rw [h1, h0]
    rw [goTo_noop_of_guard _ _ (Or.inr htgt)]

theorem startAutoplay_dur (c : Carousel) :
    (startAutoplay c).autoplayDurationMs = c.autoplayDurationMs := by
  obtain ⟨ac, h⟩ := startAutoplay_timerOnly c
  rw [h]

/-! ### The claims -/

/-- C1: for every carousel state and target index, calling `goTo(targetIndex)`
while `isAnimating` is true, or with the target equal to the current
`activeIndex`, returns immediately: `activeIndex`, `isAnimating`, the slide
markings and the counter are unchanged (the whole state is), no transition
timeline is created and no animator request is issued. -/
theorem claim1_goTo_guard_noop (c : Carousel) (i : Int)
    (h : c.isAnimating = true ∨ i = (c.activeIndex : Int)) :
    goTo c i = { state := c, timelineCreated := false, tweens := [], threw := false } :=
  goTo_noop_of_guard c i h

/-- C1 witness: a concrete self-transition request is a complete no-op. -/
theorem claim1_witness :
    goTo cSample 0 = { state := cSample, timelineCreated := false, tweens := [], threw := false } :=
  claim1_goTo_guard_noop cSample 0 (Or.inr (by decide))

/-- C2 counterexample: on a concrete two-slide autoplay-enabled carousel whose
timer has 1000 ms left, a transition runs to completion and the completion
callback leaves the timer exactly as it was (1000 ms remaining) instead of
rescheduling it to a fresh full-duration timer: the callback (source lines
502-508) never touches the autoplay timer. -/
theorem claim2_counterexample :
    (goTo (elapse cSample 3000) 1).state.autoplayEnabled = true ∧
    (onTransitionComplete (goTo (elapse cSample 3000) 1).state).activeIndex = 1 ∧
    (onTransitionComplete (goTo (elapse cSample 3000) 1).state).isAnimating = false ∧
    (onTransitionComplete (goTo (elapse cSample 3000) 1).state).autoplayCall
      = some { remainingMs := 1000, paused := false } ∧
    (onTransitionComplete (goTo (elapse cSample 3000) 1).state).autoplayCall
      ≠ (startAutoplay (onTransitionComplete (goTo (elapse cSample 3000) 1).state)).autoplayCall := by
  decide

/-- C2 (amended): when the completion callback fires for an in-flight
transition it marks the outgoing slide inactive and the target slide active,
sets `activeIndex` to the target, refreshes the counter and clears
`isAnimating`; it does NOT reschedule the autoplay timer (the timer field is
untouched — rescheduling happens at autoplay-tick time or on manual
navigation, not at completion). -/
theorem claim2_completion_settles (c : Carousel) (t : Nat) (hp : c.pendingTarget = some t) :
    onTransitionComplete c =
      { c with
        slides := (c.slides.set c.activeIndex (slideStateFor false)).set t (slideStateFor true)
        activeIndex := t
        counter := t + 1
        isAnimating := false
        pendingTarget := none } :=
  onTransitionComplete_spec c t hp

/-- C2 witness: the completion of a concrete transition settles as described. -/
theorem claim2_witness :
    onTransitionComplete (goTo cSample 1).state =
      { (goTo cSample 1).state with
        slides := ((goTo cSample 1).state.slides.set (goTo cSample 1).state.activeIndex
          (slideStateFor false)).set 1 (slideStateFor true)
        activeIndex := 1
        counter := 2
        isAnimating := false
        pendingTarget := none } :=
  claim2_completion_settles (goTo cSample 1).state 1 (by decide)

/-- C3: in every reachable state of an initialized carousel that is not
mid-transition, exactly one slide carries the `is--active` marking; and
whenever a transition is in flight, immediately after its completion
callback runs `isAnimating` is false and exactly one slide reports active. -/
theorem claim3_exactly_one_active (c : Carousel) (hr : Reachable c) :
    (c.isAnimating = false → activeCount c = 1) ∧
    (∀ t, c.pendingTarget = some t →
      (onTransitionComplete c).isAnimating = false ∧
      activeCount (onTransitionComplete c) = 1) := by
  have hInv := carouselInv_reachable c hr
  constructor
  · intro _
    exact activeCount_of_flags c hInv.2.1 hInv.1
  · intro t hpt
    have hc' := carouselInv_complete c hInv
    refine ⟨?_, activeCount_of_flags _ hc'.2.1 hc'.1⟩
    rw [onTransitionComplete_spec c t hpt]

/-- C3 witness: the initial state of a concrete carousel has exactly one
active slide. -/
theorem claim3_witness : activeCount cSample = 1 :=
  (claim3_exactly_one_active cSample
    (Reachable.init [true, false] [false, false] (some "true") none false cSample
      (by decide))).1 rfl

/-- C4: `next()` computes target `(activeIndex + 1) % slideCount` and `prev()`
computes `(activeIndex - 1 + slideCount) % slideCount`, each first resetting
the autoplay timer (cancel plus fresh full-duration restart when autoplay is
enabled) and then calling `goTo` with that target; with 4 slides, `prev()`
from index 0 begins a transition to index 3. -/
theorem claim4_next_prev_targets (c : Carousel) (hN : 0 < c.slideCount) :
    clickNext c = goTo (resetAutoplay c) (((c.activeIndex + 1) % c.slideCount : Nat) : Int) ∧
    clickPrev c = goTo (resetAutoplay c)
      (((c.activeIndex : Int) - 1 + (c.slideCount : Int)) % (c.slideCount : Int)) ∧
    (c.autoplayEnabled = true →
      (resetAutoplay c).autoplayCall
        = some { remainingMs := c.autoplayDurationMs, paused := false }) ∧
    (c.slideCount = 4 → c.activeIndex = 0 → c.isAnimating = false →
      (clickPrev c).state.pendingTarget = some 3 ∧
      (clickPrev c).state.isAnimating = true ∧
      (clickPrev c).timelineCreated = true) := by
  obtain ⟨ac, hac⟩ := resetAutoplay_timerOnly c
  refine ⟨?_, ?_, ?_, ?_⟩
  · show goTo (resetAutoplay c)
        ((((resetAutoplay c).activeIndex + 1) % (resetAutoplay c).slideCount : Nat) : Int) = _
    rw [hac]
  · show goTo (resetAutoplay c)
        ((((resetAutoplay c).activeIndex : Int) - 1 + ((resetAutoplay c).slideCount : Int)) %
          ((resetAutoplay c).slideCount : Int)) = _
    rw [hac]
  · intro hen
    simp [resetAutoplay, startAutoplay, hen]
  · intro h4 h0 hA
    have hA' : (resetAutoplay c).isAnimating = false := by rw [hac]; exact hA
    have htgt : (((resetAutoplay c).activeIndex : Int) - 1 + ((resetAutoplay c).slideCount : Int)) %
        ((resetAutoplay c).slideCount : Int) = (3 : Int) := by
      rw [hac]
      show ((c.activeIndex : Int) - 1 + (c.slideCount : Int)) % (c.slideCount : Int) = 3
      rw [h4, h0]
      decide
    have hcp : clickPrev c = goTo (resetAutoplay c) (3 : Int) := by
      show goTo (resetAutoplay c)
          ((((resetAutoplay c).activeIndex : Int) - 1 + ((resetAutoplay c).slideCount : Int)) %
            ((resetAutoplay c).slideCount : Int)) = _
      rw [htgt]
    have hne3 : (3 : Int) ≠ ((resetAutoplay c).activeIndex : Int) := by
      rw [hac]
      show (3 : Int) ≠ (c.activeIndex : Int)
      rw [h0]
      decide
    have hlt3 : (3 : Int) < ((resetAutoplay c).slideCount : Int) := by
      rw [hac]
      show (3 : Int) < (c.slideCount : Int)
      rw [h4]
      decide
    obtain ⟨hp, hA2, htl, _⟩ := goTo_valid_core (resetAutoplay c) 3 hA' hne3 (by decide) hlt3
    rw [hcp]
    exact ⟨hp, hA2, htl⟩

/-- C4 witness: on a concrete four-slide carousel, `prev()` from index 0
begins a transition with target index 3. -/
theorem claim4_witness : (clickPrev cSample4).state.pendingTarget = some 3 :=
  ((claim4_next_prev_targets cSample4 (by decide)).2.2.2 (by decide) (by decide) (by decide)).1

/-- C5: when the autoplay timer fires while the carousel is out of view or a
transition is in progress, it reschedules itself for a full interval without
advancing (`activeIndex` and any pending transition are untouched, no tween
is issued); otherwise the callback advances via
`goTo((activeIndex + 1) % slideCount)` and then reschedules. -/
theorem claim5_autoplay_tick (c : Carousel) (hen : c.autoplayEnabled = true) :
    ((c.isInView = false ∨ c.isAnimating = true) →
      autoplayTick c = { state := startAutoplay c, timelineCreated := false,
                         tweens := [], threw := false } ∧
      (autoplayTick c).state.activeIndex = c.activeIndex ∧
      (autoplayTick c).state.pendingTarget = c.pendingTarget ∧
      (autoplayTick c).state.autoplayCall
        = some { remainingMs := c.autoplayDurationMs, paused := false }) ∧
    (c.isInView = true → c.isAnimating = false →
      autoplayTick c =
        { goTo c (((c.activeIndex + 1) % c.slideCount : Nat) : Int) with
          state := startAutoplay (goTo c (((c.activeIndex + 1) % c.slideCount : Nat) : Int)).state }) := by
  constructor
  · intro hb
    have hbb : (!c.isInView || c.isAnimating) = true := by
      rcases hb with h | h <;> simp [h]
    have heq : autoplayTick c = { state := startAutoplay c, timelineCreated := false,
                                  tweens := [], threw := false } := by
      unfold autoplayTick
      rw [if_pos hbb]
    obtain ⟨ac, hs⟩ := startAutoplay_timerOnly c
    refine ⟨heq, ?_, ?_, ?_⟩
    · rw [heq]
      show (startAutoplay c).activeIndex = c.activeIndex
      rw [hs]
    · rw [heq]
      show (startAutoplay c).pendingTarget = c.pendingTarget
      rw [hs]
    · rw [heq]
      show (startAutoplay c).autoplayCall = _
      simp [startAutoplay, hen]
  · intro hv hA
    have hbb : ¬((!c.isInView || c.isAnimating) = true) := by simp [hv, hA]
    unfold autoplayTick
    rw [if_neg hbb]

/-- C5 witness: a concrete blocked tick (transition in flight) does not move
the active index. -/
theorem claim5_witness :
    (autoplayTick { cSample with isAnimating := true }).state.activeIndex
      = ({ cSample with isAnimating := true } : Carousel).activeIndex :=
  ((claim5_autoplay_tick { cSample with isAnimating := true } (by decide)).1
    (Or.inr (by decide))).2.1

/-- C6: with autoplay enabled and a timer pending, a viewport-leave pauses
the timer preserving its remaining time, and a subsequent viewport-enter
unpauses that same timer (same remaining time, not the full duration); a
fresh full-duration timer is started on enter only when no timer exists. -/
theorem claim6_pause_resume (c : Carousel) (hen : c.autoplayEnabled = true) :
    (∀ t, c.autoplayCall = some t →
      (onViewportLeave c).autoplayCall = some { remainingMs := t.remainingMs, paused := true } ∧
      (onViewportEnter (onViewportLeave c)).autoplayCall
        = some { remainingMs := t.remainingMs, paused := false }) ∧
    (c.autoplayCall = none →
      (onViewportEnter c).autoplayCall
        = some { remainingMs := c.autoplayDurationMs, paused := false }) := by
  constructor
  · intro t ht
    have hL : onViewportLeave c =
        { c with isInView := false, autoplayCall := some { t with paused := true } } := by
      show pauseAutoplay { c with isInView := false } = _
      simp [pauseAutoplay, ht]
    constructor
    · rw [hL]
    · rw [hL]
      show (resumeAutoplay
          { c with isInView := true, autoplayCall := some { t with paused := true } }).autoplayCall = _
      simp [resumeAutoplay, hen]
  · intro hnone
    show (resumeAutoplay { c with isInView := true }).autoplayCall = _
    simp [resumeAutoplay, startAutoplay, hen, hnone]

/-- C6 witness: a concrete timer with 2500 ms left is paused by leave with its
remaining time preserved. -/
theorem claim6_witness :
    (onViewportLeave (elapse cSample 1500)).autoplayCall
      = some { remainingMs := 2500, paused := true } :=
  ((claim6_pause_resume (elapse cSample 1500) (by decide)).1
    { remainingMs := 2500, paused := false } (by decide)).1

/-- C7 counterexample: the claim's "no line-splitting work is performed on
the slides in this mode" fails — the source (lines 471-492) invokes
`SplitText.create` once per split target with no reduced-motion guard, so a
slide with one split target gets one split call even in reduced motion. -/
theorem claim7_counterexample :
    splitCreateCalls true { numSplitTargets := 1, hasImg := false } = 1 ∧
    ¬ splitCreateCalls true { numSplitTargets := 1, hasImg := false } = 0 := by
  decide

/-- C7 (amended): every transition started in reduced motion animates exactly
a plain cross-fade of the outgoing and incoming slide items (opacity only,
equal 400 ms durations) and never issues a line-reveal or clip-path request;
however, line-splitting is still performed at initialization (one
`SplitText.create` per split target, independent of the flag) — only the
per-line positioning in `onSplit` is skipped in reduced-motion mode. -/
theorem claim7_reduced_motion_fade (c : Carousel) (i : Int)
    (hrm : c.reduceMotion = true) (hA : c.isAnimating = false)
    (hne : i ≠ (c.activeIndex : Int)) (h0 : 0 ≤ i) (hN : i < (c.slideCount : Int)) :
    (goTo c i).tweens =
      [{ target := .item c.activeIndex, prop := .autoAlpha, val := 0,
         durationMs := 400, ease := "power2" },
       { target := .item i.toNat, prop := .autoAlpha, val := 1,
         durationMs := 400, ease := "power2" }] ∧
    (∀ tw ∈ (goTo c i).tweens, tw.prop = AnimProp.autoAlpha ∧ tw.durationMs = 400 ∧
      (tw.target = AnimTarget.item c.activeIndex ∨ tw.target = AnimTarget.item i.toNat)) ∧
    (∀ rm slide, splitCreateCalls rm slide = slide.numSplitTargets) ∧
    (∀ active slide, onSplitOps true active slide = []) := by
  have hg : ¬(c.isAnimating = true ∨ i = (c.activeIndex : Int)) := by
    rw [hA]; simp [hne]
  have htw : (goTo c i).tweens =
      [{ target := .item c.activeIndex, prop := .autoAlpha, val := 0,
         durationMs := 400, ease := "power2" },
       { target := .item i.toNat, prop := .autoAlpha, val := 1,
         durationMs := 400, ease := "power2" }] := by
    unfold goTo
    rw [if_neg hg]
    simp [hrm, if_pos (And.intro h0 hN)]
  refine ⟨htw, ?_, fun rm slide => rfl, fun active slide => rfl⟩
  intro tw hmem
  rw [htw] at hmem
  simp only [List.mem_cons, List.not_mem_nil, or_false] at hmem
  rcases hmem with rfl | rfl
  · exact ⟨rfl, rfl, Or.inl rfl⟩
  · exact ⟨rfl, rfl, Or.inr rfl⟩

/-- C7 witness: a concrete reduced-motion transition issues exactly the
two-fade cross-fade. -/
theorem claim7_witness :
    (goTo { cSample with reduceMotion := true } 1).tweens =
      [{ target := .item 0, prop := .autoAlpha, val := 0, durationMs := 400, ease := "power2" },
       { target := .item 1, prop := .autoAlpha, val := 1, durationMs := 400, ease := "power2" }] :=
  (claim7_reduced_motion_fade { cSample with reduceMotion := true } 1 (by decide) (by decide)
    (by decide) (by decide) (by decide)).1

/-- C8: on a single-slide carousel, any sequence of next/prev clicks leaves
the active index unchanged, issues no animator request and never creates a
transition timeline: both handlers compute the active index itself, so
`goTo` always returns at its guard. -/
theorem claim8_single_slide (c : Carousel) (h1 : c.slideCount = 1) (h0 : c.activeIndex = 0)
    (navs : List Bool) :
    (runNavs c navs).final.activeIndex = c.activeIndex ∧
    (runNavs c navs).tweens = [] ∧
    (runNavs c navs).timelineCreated = false := by
  induction navs generalizing c with
  | nil => exact ⟨rfl, rfl, rfl⟩
  | cons b rest ih =>
    obtain ⟨ac, hac⟩ := resetAutoplay_timerOnly c
    have hclick := click_noop_single c h1 h0 b
    have h1' : (resetAutoplay c).slideCount = 1 := by rw [hac]; exact h1
    have h0' : (resetAutoplay c).activeIndex = 0 := by rw [hac]; exact h0
    have hres := ih (resetAutoplay c) h1' h0'
    simp only [runNavs]
    rw [hclick]
    refine ⟨?_, ?_, ?_⟩
    · show (runNavs (resetAutoplay c) rest).final.activeIndex = c.activeIndex
      rw [hres.1, hac]
    · show [] ++ (runNavs (resetAutoplay c) rest).tweens = []
      rw [hres.2.1]
      rfl
    · show (false || (runNavs (resetAutoplay c) rest).timelineCreated) = false
      rw [hres.2.2]
      rfl

/-- C8 witness: four clicks on a concrete single-slide carousel leave the
active index at 0. -/
theorem claim8_witness :
    (runNavs cOne [true, false, true, true]).final.activeIndex = cOne.activeIndex :=
  (claim8_single_slide cOne (by decide) (by decide) [true, false, true, true]).1

/-- C9: a non-animating `goTo` with an index outside `[0, slideCount)` (hence
distinct from the in-range active index) throws after setting `isAnimating`,
leaving the state otherwise unchanged; from then on, under every sequence of
events (clicks, keys, autoplay ticks, completions, viewport changes, time),
`isAnimating` stays true, the active index never moves, and every direct
`goTo` request is silently ignored — the carousel is locked forever. -/
theorem claim9_out_of_range_locks (c : Carousel) (i : Int)
    (hA : c.isAnimating = false) (hp : c.pendingTarget = none)
    (ha : c.activeIndex < c.slideCount)
    (hoob : i < 0 ∨ (c.slideCount : Int) ≤ i) :
    (goTo c i).threw = true ∧
    (goTo c i).state = { c with isAnimating := true } ∧
    ∀ evs : List Ev,
      (steps (goTo c i).state evs).isAnimating = true ∧
      (steps (goTo c i).state evs).activeIndex = c.activeIndex ∧
      ∀ j : Int, goTo (steps (goTo c i).state evs) j =
        { state := steps (goTo c i).state evs, timelineCreated := false,
          tweens := [], threw := false } := by
  have hbound1 : (0 : Int) ≤ (c.activeIndex : Int) := Int.natCast_nonneg _
  have hbound2 : (c.activeIndex : Int) < (c.slideCount : Int) := by exact_mod_cast ha
  have hne : i ≠ (c.activeIndex : Int) := by
    rcases hoob with h | h <;> omega
  have hoob' : ¬(0 ≤ i ∧ i < (c.slideCount : Int)) := by
    rintro ⟨hx, hy⟩
    rcases hoob with h | h <;> omega
  obtain ⟨hthrew, hstate⟩ := goTo_oob c i hA hne hoob'
  refine ⟨hthrew, hstate, ?_⟩
  intro evs
  have hlock : LockedAt (goTo c i).state c.activeIndex := by
    rw [hstate]
    exact ⟨rfl, hp, rfl⟩
  have h2 := lockedAt_steps _ _ hlock evs
  exact ⟨h2.1, h2.2.2, fun j => goTo_noop_of_guard _ j (Or.inl h2.1)⟩

/-- C9 witness: a concrete out-of-range request on a two-slide carousel
throws. -/
theorem claim9_witness : (goTo cSample 5).threw = true :=
  (claim9_out_of_range_locks cSample 5 (by decide) (by decide) (by decide)
    (Or.inr (by decide))).1

/-- C10: when the autoplay-duration attribute is absent or non-numeric,
initialization falls back to the default 4000 ms duration. -/
theorem claim10_duration_default (marks imgs : List Bool) (ap durAttr : Option String)
    (rm : Bool) (c : Carousel)
    (h : initCarousel marks imgs ap durAttr rm = some c)
    (hbad : durAttr = none ∨ ∃ s, durAttr = some s ∧ jsParseInt s = none) :
    c.autoplayDurationMs = 4000 := by
  have hdur : autoplayDurationOf durAttr = 4000 := by
    rcases hbad with rfl | ⟨s, rfl, hs⟩
    · rfl
    · simp [autoplayDurationOf, hs]
  unfold initCarousel at h
  by_cases he : marks.isEmpty
  · rw [if_pos he] at h
    exact absurd h (by simp)
  · rw [if_neg he] at h
    injection h with h
    subst h
    rw [startAutoplay_dur]
    exact hdur

/-- C10 witness: a concrete `"abc"` duration attribute yields 4000 ms. -/
theorem claim10_witness : c10W.autoplayDurationMs = 4000 :=
  claim10_duration_default [true] [false] none (some "abc") false c10W (by decide)
    (Or.inr ⟨"abc", rfl, by decide⟩)
